import Mathlib

/-!
# Verification of the asynchronous task pipeline backend

Shallow embedding of the pipeline, retry, credit and refresh-coordination
logic of the FastAPI backend (`src/`), together with theorems settling the
frozen claims about its specification.

Conventions:
* Python strings are Lean `String`s; Python string primitives (`in`, `find`,
  `strip`, `replace`, `lower`) are re-implemented below with Python's
  semantics.
* External collaborators (object storage, OCR, identity provider, LLM HTTP
  service, relational store) are modelled at their interface boundary: each
  embedded function takes the collaborator's outcome as an explicit argument
  and is otherwise a direct translation of the Python control flow.
* The progress broadcaster (`services/websocket_service.py` is absent from
  the source tree; modelled from the spec: `publish` delivers events in call
  order) is represented by the list of `status` strings of the
  `manager.send_message` calls a run performs, in program order.
-/

/-! ## Python string primitives -/

/-- `pat` occurs at the start of `l` (Python `str.startswith` on char lists). -/
def listStartsWith : List Char → List Char → Bool
  | _, [] => true
  | [], _ :: _ => false
  | a :: l, b :: p => (a = b) && listStartsWith l p

/-- `pat` occurs somewhere in `l` (Python `pat in s`). -/
def listContainsSub (pat : List Char) : List Char → Bool
  | [] => pat.isEmpty
  | a :: l => listStartsWith (a :: l) pat || listContainsSub pat l

/-- Python `pat in s` on strings. -/
def pyIn (pat s : String) : Bool := listContainsSub pat.toList s.toList

/-- Index of the first occurrence of `pat` in `l`; `none` if absent
(Python `str.find` returning `-1` becomes `none`). -/
def listFindIdx (pat : List Char) : List Char → Option Nat
  | [] => if pat.isEmpty then some 0 else none
  | a :: l =>
    if listStartsWith (a :: l) pat then some 0
    else (listFindIdx pat l).map (· + 1)

/-- The characters Python `str.strip()` removes by default. -/
def pyIsSpace (c : Char) : Bool :=
  c = ' ' || c = '\t' || c = '\n' || c = '\r' || c = Char.ofNat 11 || c = Char.ofNat 12

/-- Python `str.strip()`. -/
def pyStrip (s : String) : String :=
  ⟨((s.toList.dropWhile pyIsSpace).reverse.dropWhile pyIsSpace).reverse⟩

/-- Python `s.replace("---", "")`: left-to-right removal of every
non-overlapping occurrence of `---`. -/
def removeTripleDash : List Char → List Char
  | '-' :: '-' :: '-' :: l => removeTripleDash l
  | a :: l => a :: removeTripleDash l
  | [] => []

/-- Python slice `l[a:b]` for non-negative indices. -/
def pySlice (l : List Char) (a b : Nat) : List Char := (l.drop a).take (b - a)

/-- Python `str.lower()` (ASCII range, which covers the error messages the
source classifies). -/
def pyLower (s : String) : String :=
  ⟨s.toList.map (fun c => if 'A' ≤ c ∧ c ≤ 'Z' then Char.ofNat (c.toNat + 32) else c)⟩

/-! ## `utils/supabase_client.py` — `SupabaseRetryClient`

The wrapped operation is modelled as a function from the attempt index to the
outcome that invocation produces (`ok` = the Python call returns a value,
`err` = it raises an exception whose `str(e)` is the carried message). -/

/-- Outcome of one invocation of the wrapped operation. -/
inductive OpResult (α : Type) where
  | ok (v : α)
  | err (msg : String)
deriving DecidableEq, Repr

/-- Observable behaviour of one `execute_with_retry` run: the returned value
or raised error, the number of times the operation was invoked, and the
backoff delays slept (in order). -/
structure RetryRun (α : Type) where
  result : Except String α
  calls : Nat
  delays : List ℚ

/-- The `retryable_errors` message fragments of `SupabaseRetryClient`. -/
def retryableErrors : List String :=
  ["timeout", "connection", "network", "temporary",
   "service unavailable", "gateway timeout", "bad gateway",
   "too many requests", "rate limit"]

/-- `is_retryable = any(error in error_msg for error in retryable_errors)`
with `error_msg = str(e).lower()`. -/
def isRetryable (msg : String) : Bool :=
  retryableErrors.any (fun e => pyIn e (pyLower msg))

/-- The `for attempt in range(self.max_retries)` loop of
`SupabaseRetryClient.execute_with_retry`, at attempt index `attempt` with
`remaining` loop iterations left (`attempt + remaining = maxRetries` at the
top-level call).  The `0` case is the `raise last_exception` after the loop,
reachable only when `max_retries = 0` (where Python would raise `None`). -/
def supabaseRetryAux {α : Type} (op : Nat → OpResult α) (maxRetries : Nat) (baseDelay : ℚ) :
    Nat → Nat → RetryRun α
  | _, 0 => ⟨Except.error "NoneType", 0, []⟩
  | attempt, remaining + 1 =>
    match op attempt with
    | .ok v => ⟨Except.ok v, 1, []⟩
    | .err m =>
      if isRetryable m = false ∨ attempt = maxRetries - 1 then
        ⟨Except.error m, 1, []⟩
      else
        let rest := supabaseRetryAux op maxRetries baseDelay (attempt + 1) remaining
        ⟨rest.result, rest.calls + 1, baseDelay * 2 ^ attempt :: rest.delays⟩

/-- `SupabaseRetryClient.execute_with_retry` (src/utils/supabase_client.py). -/
def SupabaseRetryClient.execute_with_retry {α : Type} (maxRetries : Nat) (baseDelay : ℚ)
    (op : Nat → OpResult α) : RetryRun α :=
  supabaseRetryAux op maxRetries baseDelay 0 maxRetries

/-! ## `utils/supabase_client_coder.py` — `CoderSupabaseRetryClient`

Translated separately from its own source for the equivalence claim. -/

/-- The `retryable_errors` list of `CoderSupabaseRetryClient`. -/
def coderRetryableErrors : List String :=
  ["timeout", "connection", "network", "temporary",
   "service unavailable", "gateway timeout", "bad gateway",
   "too many requests", "rate limit"]

/-- Error classification in `CoderSupabaseRetryClient.execute_with_retry`. -/
def coderIsRetryable (msg : String) : Bool :=
  coderRetryableErrors.any (fun e => pyIn e (pyLower msg))

/-- The retry loop of `CoderSupabaseRetryClient.execute_with_retry`. -/
def coderRetryAux {α : Type} (op : Nat → OpResult α) (maxRetries : Nat) (baseDelay : ℚ) :
    Nat → Nat → RetryRun α
  | _, 0 => ⟨Except.error "NoneType", 0, []⟩
  | attempt, remaining + 1 =>
    match op attempt with
    | .ok v => ⟨Except.ok v, 1, []⟩
    | .err m =>
      if coderIsRetryable m = false ∨ attempt = maxRetries - 1 then
        ⟨Except.error m, 1, []⟩
      else
        let rest := coderRetryAux op maxRetries baseDelay (attempt + 1) remaining
        ⟨rest.result, rest.calls + 1, baseDelay * 2 ^ attempt :: rest.delays⟩

/-- `CoderSupabaseRetryClient.execute_with_retry`
(src/utils/supabase_client_coder.py). -/
def CoderSupabaseRetryClient.execute_with_retry {α : Type} (maxRetries : Nat) (baseDelay : ℚ)
    (op : Nat → OpResult α) : RetryRun α :=
  coderRetryAux op maxRetries baseDelay 0 maxRetries

/-- Decidable equality for `Except`, used to evaluate witnesses. -/
instance {ε α : Type} [DecidableEq ε] [DecidableEq α] : DecidableEq (Except ε α)
  | .ok x, .ok y =>
    if h : x = y then .isTrue (by rw [h]) else .isFalse (fun hh => by cases hh; exact h rfl)
  | .ok _, .error _ => .isFalse (fun hh => by cases hh)
  | .error _, .ok _ => .isFalse (fun hh => by cases hh)
  | .error x, .error y =>
    if h : x = y then .isTrue (by rw [h]) else .isFalse (fun hh => by cases hh; exact h rfl)

/-! ## `services/database_service.py` — `update_user_credits`

The `users` table is modelled as a map from user id to the stored
`remaining_credits` value (`none` = no row for that id).  The Supabase
`select`/`update` round trips are the map read and write; the
"empty update response" error branch of the source reports a failure but
corresponds to the same written value, so the model lets the write succeed. -/

/-- The `users` table, projected to the `remaining_credits` column. -/
structure UsersDB where
  credits : String → Option Int

/-- `update_user_credits(user_id, credit_change)`
(src/services/database_service.py): read `remaining_credits`, clamp
`current + change` at zero, write it back.  Returns the updated table and
either the written `new_credits` or the "User not found" error. -/
def update_user_credits (db : UsersDB) (userId : String) (creditChange : Int) :
    UsersDB × Except String Int :=
  match db.credits userId with
  | none => (db, Except.error "User not found")
  | some currentCredits =>
    let newCredits := max 0 (currentCredits + creditChange)
    (⟨fun u => if u = userId then some newCredits else db.credits u⟩,
     Except.ok newCredits)

/-- A sequence of `update_user_credits` calls for one user, applied in order
(each AI turn of the pipeline performs one such call with change `-1`). -/
def applyCreditChanges (db : UsersDB) (userId : String) : List Int → UsersDB
  | [] => db
  | d :: ds => applyCreditChanges (update_user_credits db userId d).1 userId ds

/-! ## `utils/auth.py` — `silent_refresh_token` singleflight model

All calls carry the identical refresh credential, within one 30-second TTL
window (the claim's hypothesis), so time is fixed: `_cleanup_expired_locks`
removes nothing (entries are younger than 300 s) and a cache entry, once
written, stays fresh; the single token hash owns a single lock.

The identity provider is modelled from the spec (§4.2/§6):
`supabase.auth.refresh_session` is a synchronous call whose refresh
credential is single-use — the first invocation succeeds and returns the new
`(user, session)` pair `R`; a later invocation with the same credential
would raise an error containing `refresh_token_already_used`.

Interleaving: cooperative (asyncio) scheduling on one event loop.  The body
of `silent_refresh_token` contains no suspension point: awaiting
`_cleanup_expired_locks()` never yields (the coroutine contains no `await`),
the TTL-cache lookup and lock creation (lines 37–54) are plain synchronous
code, acquiring an uncontended `asyncio.Lock` returns without yielding, the
body of `async with lock` (lines 57–111) contains no `await` — the
`refresh_session` call is the blocking synchronous client — and the lock is
never contended, because no holder ever yields while holding it.  Each call
therefore executes atomically from its first statement to its `return`, and
a schedule only chooses the order in which whole calls run.

A schedule is a list of caller indices; scheduling a finished (or absent)
caller is a no-op. -/

/-- Progress of one `silent_refresh_token` caller: not yet scheduled, or
returned.  `done r` carries the returned pair: `some p` for a
`(user, session_data)` result, `none` for the `(None, None)` failure
return. -/
inductive RefreshCaller (α : Type) where
  | pending
  | done (res : Option α)
deriving DecidableEq, Repr

/-- Shared state: the `_cached_tokens` entry for the token hash, whether the
identity provider has consumed the refresh credential, the number of
`supabase.auth.refresh_session` invocations so far, and every caller's
progress. -/
structure RefreshState (α : Type) where
  cache : Option α
  tokenUsed : Bool
  refreshCalls : Nat
  callers : List (RefreshCaller α)
deriving DecidableEq, Repr

/-- One atomic execution of `silent_refresh_token` by caller `i`, with `R`
the pair produced by the (unique) successful provider refresh:
cleanup (a no-op here), the TTL-cache lookup of lines 43–48, and — on a
miss — lock creation, uncontended acquisition and the locked body of lines
57–111, all without an intervening suspension point. -/
def refreshStep {α : Type} (R : α) (s : RefreshState α) (i : Nat) : RefreshState α :=
  match s.callers[i]? with
  | some .pending =>
    match s.cache with
    | some r =>
      -- cache hit within the TTL window: return the cached pair.
      { s with callers := s.callers.set i (.done (some r)) }
    | none =>
      if s.tokenUsed then
        -- `refresh_session` raises `refresh_token_already_used`; the except
        -- branch (lines 99–111) would return the cached pair, but the cache
        -- is empty at this point of the step, so the call returns
        -- `(None, None)`.  (Unreachable from the initial state: the caller
        -- that consumed the credential filled the cache in the same atomic
        -- step, as the invariant below proves.)
        { s with refreshCalls := s.refreshCalls + 1,
                 callers := s.callers.set i (.done none) }
      else
        -- lines 60–97: successful refresh; cache the result and return it.
        { cache := some R, tokenUsed := true, refreshCalls := s.refreshCalls + 1,
          callers := s.callers.set i (.done (some R)) }
  | some (.done _) => s
  | none => s

/-- Initial state for `n` concurrent callers of `silent_refresh_token`. -/
def refreshInit (α : Type) (n : Nat) : RefreshState α :=
  ⟨none, false, 0, List.replicate n .pending⟩

/-- Run `silent_refresh_token` callers under schedule `sched`. -/
def refreshRun {α : Type} (R : α) (n : Nat) (sched : List Nat) : RefreshState α :=
  sched.foldl (refreshStep R) (refreshInit α n)

/-! ## `utils/ai.py` — prompt construction -/

/-- `get_user_prompt(mode, language, ocr_text, user_input, speech)`
(src/utils/ai.py, the f-string reproduced verbatim). -/
def get_user_prompt (mode language ocrText userInput speech : String) : String :=
  "\n*Mode*: \n" ++ mode ++
  "\n\n*Programming Language*: \n" ++ language ++
  "\n\n*OCR Text*:\n" ++ ocrText ++
  "\n\n*Prior Conversation Context*:\n" ++ speech ++
  "\n\n*User Text Input*:\n" ++ userInput ++ "\n\n"

/-- Modelled from the spec: `get_system_prompt` is imported by
`services/gpt_service.py` from `utils/ai.py`, but the source snapshot only
defines the fixed `system_prompt` constant; §4.4 of the spec requires only
"a fixed system turn", so the function is modelled as a fixed text
parameterised by the UI language.  No claim depends on the prompt content
(spec §1: prompt content is a non-goal). -/
def get_system_prompt (language : String) : String :=
  "system prompt (" ++ language ++ ")"

/-- One part of a structured multimodal message payload. -/
inductive ContentPart where
  | textPart (text : String)
  | imageUrl (url : String)
deriving DecidableEq, Repr

/-- A message body: plain text, or a structured multimodal payload. -/
inductive Content where
  | str (s : String)
  | parts (ps : List ContentPart)
deriving DecidableEq, Repr

/-- One `{role, content}` turn of a Conversation. -/
structure Msg where
  role : String
  content : Content
deriving DecidableEq, Repr

/-- `combined_text = "\n\n".join(f"Text {i+1}:\n{text}" ...)` used by the
text-mode AI services. -/
def combinedText (texts : List String) : String :=
  String.intercalate "\n\n"
    (texts.enum.map (fun p => "Text " ++ toString (p.1 + 1) ++ ":\n" ++ p.2))

/-! ## `services/gpt_service.py` and `services/claude_service.py`

Each service function returns the list of statuses it publishes and either
`ok (analysis, conversation)` (the Python success dict) or an error message
(the failure dict).  The environment supplies:
* whether `AI_SERVICE_URL` is set,
* the HTTP call outcome: `ok responseText` for a 200 response with parsed
  body, `error text` for a non-200 response (a raised exception produces the
  same failure shape with `str(e)` as message and no further events),
* for the debug services, the `get_record_by_task_id` outcome. -/

/-- The row `get_record_by_task_id` returns, projected to the
`current_conversation` column used by the debug services (absent column =
`none`; the source's JSON-string fallback decodes to the same list and is
modelled as already decoded). -/
structure TaskRecord where
  currentConversation : Option (List Msg)
deriving Repr

/-- `generate_with_openai(texts, user_input, programming_language, model,
task_id, speech, language)` (src/services/gpt_service.py): publishes
`ai started`, builds a fresh system+user conversation, and on HTTP 200
publishes `ai completed` and appends the assistant turn. -/
def generate_with_openai (urlPresent : Bool) (http : Except String String)
    (texts : List String) (userInput programmingLanguage speech language : String) :
    List String × Except String (String × List Msg) :=
  if urlPresent = false then
    (["ai started"], Except.error "AWS service URL not found in environment variables")
  else
    let conversation : List Msg :=
      [⟨"system", .str (get_system_prompt language)⟩,
       ⟨"user", .str (get_user_prompt "generate" programmingLanguage
          (combinedText texts) userInput speech)⟩]
    match http with
    | .ok responseText =>
      (["ai started", "ai completed"],
       Except.ok (responseText, conversation ++ [⟨"assistant", .str responseText⟩]))
    | .error errorText =>
      (["ai started"], Except.error ("AI service error: " ++ errorText))

/-- `debug_with_openai(texts, user_input, programming_language, model,
language, task_id, speech)` (src/services/gpt_service.py): publishes
`ai started`, reloads the stored Conversation for `task_id`, appends the new
user turn, and on HTTP 200 publishes `ai completed` and returns that
conversation — the assistant's reply is carried only in the `analysis`
field, not appended. -/
def debug_with_openai (urlPresent : Bool) (recordResult : Except String TaskRecord)
    (http : Except String String)
    (texts : List String) (userInput programmingLanguage speech : String) :
    List String × Except String (String × List Msg) :=
  if urlPresent = false then
    (["ai started"], Except.error "AWS service URL not found in environment variables")
  else
    match recordResult with
    | .error e => (["ai started"], Except.error ("Failed to fetch record: " ++ e))
    | .ok record =>
      let existingConversation := record.currentConversation.getD []
      let conversation := existingConversation ++
        [⟨"user", .str (get_user_prompt "debug" programmingLanguage
           (combinedText texts) userInput speech)⟩]
      match http with
      | .ok responseText =>
        (["ai started", "ai completed"], Except.ok (responseText, conversation))
      | .error errorText =>
        (["ai started"], Except.error ("AI service error: " ++ errorText))

/-- `generate_with_anthropic(texts, user_input, language, model, task_id,
speech)` (src/services/claude_service.py): no progress events; builds a
single-user-turn conversation and returns it unchanged on success. -/
def generate_with_anthropic (urlPresent : Bool) (http : Except String String)
    (texts : List String) (userInput language speech : String) :
    List String × Except String (String × List Msg) :=
  if urlPresent = false then
    ([], Except.error "AWS service URL not found in environment variables")
  else
    let conversation : List Msg :=
      [⟨"user", .str (get_user_prompt "generate" language
         (combinedText texts) userInput speech)⟩]
    match http with
    | .ok responseText => ([], Except.ok (responseText, conversation))
    | .error errorText => ([], Except.error ("AI service error: " ++ errorText))

/-- `debug_with_anthropic(texts, user_input, language, model, task_id,
speech)` (src/services/claude_service.py): reloads the stored Conversation,
appends the new user turn, and returns that conversation on success — like
`debug_with_openai`, the assistant's reply is not appended; no events. -/
def debug_with_anthropic (urlPresent : Bool) (recordResult : Except String TaskRecord)
    (http : Except String String)
    (texts : List String) (userInput language speech : String) :
    List String × Except String (String × List Msg) :=
  if urlPresent = false then
    ([], Except.error "AWS service URL not found in environment variables")
  else
    match recordResult with
    | .error e => ([], Except.error ("Failed to fetch record: " ++ e))
    | .ok record =>
      let existingConversation := record.currentConversation.getD []
      let conversation := existingConversation ++
        [⟨"user", .str (get_user_prompt "debug" language
           (combinedText texts) userInput speech)⟩]
      match http with
      | .ok responseText => ([], Except.ok (responseText, conversation))
      | .error errorText => ([], Except.error ("AI service error: " ++ errorText))

/-- `generate_with_openai_multimodal(ocr_text, text, images, ...)`
(src/services/gpt_service.py): publishes `ai started`, builds a multimodal
system+user conversation with one data-URL part per base64 image, and on
HTTP 200 publishes `ai completed` and appends the assistant turn. -/
def generate_with_openai_multimodal (urlPresent : Bool) (http : Except String String)
    (ocrText text : String) (images : List String)
    (programmingLanguage speech language : String) :
    List String × Except String (String × List Msg) :=
  if urlPresent = false then
    (["ai started"], Except.error "AWS service URL not found in environment variables")
  else
    let userParts : List ContentPart :=
      .textPart (get_user_prompt "generate" programmingLanguage ocrText text speech) ::
        images.map (fun image => .imageUrl ("data:image/jpeg;base64," ++ image))
    let conversation : List Msg :=
      [⟨"system", .str (get_system_prompt language)⟩, ⟨"user", .parts userParts⟩]
    match http with
    | .ok responseText =>
      (["ai started", "ai completed"],
       Except.ok (responseText, conversation ++ [⟨"assistant", .str responseText⟩]))
    | .error errorText =>
      (["ai started"], Except.error ("AI service error: " ++ errorText))

/-! ## `services/task_processor.py` — the four pipeline entry points

Collaborator outcomes supplied by the environment:
* per-image `upload_to_storage` outcome (`some url` = success with
  `file_url`, `none` = failure dict),
* `save_image_record` / `save_image_record_for_debug` success,
* `ocr_parse` outcome (`ok texts` / `error message`),
* the AI service inputs of the embedded service functions,
* `update_user_credits` outcome (`ok new_credits` / `error message`).

`process_generate` dispatches its uploads through `asyncio.gather`; the
per-image event pairs below are listed in image order — a concurrent
schedule can permute events of different images within the upload segment,
which every theorem about the upload segment is insensitive to (the other
three entry points upload sequentially). -/

/-- One submitted image: original filename, its base64-encoded content
(as produced by `base64.b64encode(...).decode()`), and the
`upload_to_storage` outcome for it. -/
structure ImgOutcome where
  filename : String
  contentB64 : String
  uploadUrl : Option String
deriving DecidableEq, Repr

/-- The `initial_record` persisted by `process_generate` /
`process_generate_multimodal`. -/
structure GenRecord where
  id : String
  imageUrls : List String
  fileNames : List String
  userId : String
  totalImages : Nat
deriving DecidableEq, Repr

/-- The `initial_record` persisted by `process_debug` /
`process_multimodal_debug` (its `id` is a fresh `uuid4`, external
randomness, omitted). -/
structure DebugRecord where
  taskId : String
  imageUrls : List String
  fileNames : List String
  totalImages : Nat
  round : Nat
deriving DecidableEq, Repr

/-- The value a `process_debug` / `process_multimodal_debug` invocation
returns: the bare `return` of the event-publishing early exits, the
`{"success": False, "error": ...}` dict, or the success dict. -/
inductive DebugRet where
  | noRet
  | fail (error : String)
  | ok (analysis : String) (ocrText : Option String)
deriving DecidableEq, Repr

/-- The problem/solution extraction inlined in all four entry points
(src/services/task_processor.py lines 150–159, 332–343, 530–541, 702–713):
locate the first `[[[` and the first `]]]`; if both exist, problem is the
stripped slice between them and solution the stripped remainder after
`]]]`; otherwise problem is empty and solution is the whole text stripped
with every `---` removed. -/
def extractProblemSolution (analysisText : String) : String × String :=
  let l := analysisText.toList
  match listFindIdx "[[[".toList l, listFindIdx "]]]".toList l with
  | some problemStart, some problemEnd =>
    (pyStrip ⟨pySlice l (problemStart + 3) problemEnd⟩,
     pyStrip ⟨l.drop (problemEnd + 3)⟩)
  | _, _ => ("", ⟨removeTripleDash (pyStrip analysisText).toList⟩)

/-- The progress events of the upload stage, in image order: `uploading`
for each image, followed by `storage error` if its upload failed. -/
def uploadEvents (images : List ImgOutcome) : List String :=
  images.flatMap (fun img =>
    "uploading" :: (match img.uploadUrl with | some _ => [] | none => ["storage error"]))

/-- The surviving storage results (`file_url`s of successful uploads). -/
def surviving (images : List ImgOutcome) : List String :=
  images.filterMap (·.uploadUrl)

/-- Environment of one `process_generate` / `process_generate_multimodal`
invocation. -/
structure GenEnv where
  taskId : String
  images : List ImgOutcome
  userId : String
  userInput : String
  programmingLanguage : String
  model : String
  speech : String
  language : String
  saveOk : Bool
  ocrResult : Except String (List String)
  aiUrlPresent : Bool
  aiHttp : Except String String
  creditsResult : Except String Int
deriving Repr

/-- Observable outcome of a generate-side pipeline run: the published
status sequence, the persisted initial record (if any), and the final
problem/solution pair (if reached). -/
structure GenOut where
  trace : List String
  savedRecord : Option GenRecord
  split : Option (String × String)
deriving Repr

/-- `process_generate` (src/services/task_processor.py lines 15–194).
Status sequence and persistence of one run.  Notes tied to the source:
* all uploads failing publishes `error` and stops (lines 62–67);
* no `ocr processing` status is ever published on this path;
* a Claude-family model reaches a call that passes 7 positional arguments
  to the 6-parameter `generate_with_anthropic`, and an unrecognised model
  leaves `ai_result` unassigned — both raise, and the top-level handler
  (lines 190–194) publishes `error`;
* on success the service publishes `ai completed` and the pipeline
  publishes it again (line 143);
* a failed credit update publishes `credits error` and then reads the
  missing `new_credits` key (line 184), a `KeyError` the top-level handler
  turns into a final `error` event after `completed`. -/
def process_generate (env : GenEnv) : GenOut :=
  let t0 := "started" :: uploadEvents env.images
  if (surviving env.images).isEmpty then ⟨t0 ++ ["error"], none, none⟩
  else
    let record : GenRecord :=
      ⟨env.taskId, surviving env.images, env.images.map (·.filename),
       env.userId, env.images.length⟩
    if env.saveOk = false then ⟨t0 ++ ["save error"], none, none⟩
    else
      match env.ocrResult with
      | .error _ => ⟨t0 ++ ["ocr error"], some record, none⟩
      | .ok texts =>
        let t1 := t0 ++ ["ocr completed"]
        if pyIn "gpt" env.model then
          let ai := generate_with_openai env.aiUrlPresent env.aiHttp texts
            env.userInput env.programmingLanguage env.speech env.language
          let t2 := t1 ++ ai.1
          match ai.2 with
          | .error _ => ⟨t2 ++ ["ai error"], some record, none⟩
          | .ok (analysis, _) =>
            let split := extractProblemSolution analysis
            let t3 := t2 ++ ["ai completed", "completed"]
            match env.creditsResult with
            | .error _ => ⟨t3 ++ ["credits error", "error"], some record, some split⟩
            | .ok newCredits =>
              ⟨t3 ++ (if newCredits ≤ 0 then ["no credits"] else []),
               some record, some split⟩
        else if pyIn "claude" env.model then
          ⟨t1 ++ ["error"], some record, none⟩
        else
          ⟨t1 ++ ["error"], some record, none⟩

/-- Environment of one `process_debug` / `process_multimodal_debug`
invocation (`imagesOpt = none` models calling with the parameter left at
its default `None`). -/
structure DebugEnv where
  taskId : String
  userId : String
  userInput : String
  imagesOpt : Option (List ImgOutcome)
  programmingLanguage : String
  model : String
  round : Nat
  speech : String
  language : String
  saveOk : Bool
  ocrResult : Except String (List String)
  aiUrlPresent : Bool
  recordLookup : Except String TaskRecord
  aiHttp : Except String String
  creditsResult : Except String Int
deriving Repr

/-- Observable outcome of a debug-side pipeline run: published statuses,
persisted initial record, the conversation written back to the task row
(if any), and the returned value. -/
structure DebugOut where
  trace : List String
  savedRecord : Option DebugRecord
  persistedConv : Option (List Msg)
  ret : DebugRet
deriving Repr

/-- `process_debug` (src/services/task_processor.py lines 197–368).
Notes tied to the source:
* `for index, image in enumerate(images)` with `images = None` raises
  `TypeError` before any event; the top-level handler (lines 364–368)
  returns a failure dict and publishes nothing;
* there is no all-uploads-failed check: the record is created with the
  surviving (possibly empty) url list and processing continues;
* an OCR failure returns a failure dict without publishing;
* a Claude-family model passes 7 positional arguments to the 6-parameter
  `debug_with_anthropic` (TypeError), an unrecognised model leaves
  `ai_result` unassigned (NameError): both are caught and returned as a
  failure dict with no event;
* on success the conversation returned by the service (history + user turn
  only) is persisted to the task row and `ai completed`/`completed` are
  published; the credit update's outcome is ignored. -/
def process_debug (env : DebugEnv) : DebugOut :=
  match env.imagesOpt with
  | none => ⟨[], none, none, .fail "TypeError: NoneType object is not iterable"⟩
  | some images =>
    let record : DebugRecord :=
      ⟨env.taskId, surviving images, images.map (·.filename), images.length, env.round⟩
    if env.saveOk = false then ⟨uploadEvents images ++ ["save error"], none, none, .noRet⟩
    else
      let t1 := uploadEvents images ++ ["ocr processing"]
      match (if images.isEmpty then Except.ok [] else env.ocrResult) with
      | .error e => ⟨t1, some record, none, .fail e⟩
      | .ok texts =>
        let t2 := t1 ++ ["ocr completed"]
        if pyIn "gpt" env.model then
          let ai := debug_with_openai env.aiUrlPresent env.recordLookup env.aiHttp texts
            env.userInput env.programmingLanguage env.speech
          let t3 := t2 ++ ai.1
          match ai.2 with
          | .error _ => ⟨t3 ++ ["ai error"], some record, none, .noRet⟩
          | .ok (analysis, conversation) =>
            ⟨t3 ++ ["ai completed", "completed"], some record, some conversation,
             .ok analysis texts.head?⟩
        else if pyIn "claude" env.model then
          ⟨t2, some record, none,
           .fail "TypeError: debug_with_anthropic takes 6 positional arguments but 7 were given"⟩
        else
          ⟨t2, some record, none, .fail "NameError: ai_result is not defined"⟩

/-- `process_generate_multimodal` (src/services/task_processor.py lines
370–571).  Differs from `process_generate` in: sequential uploads, no
all-uploads-failed check, an `ocr processing` status, no duplicated
pipeline-level `ai completed`, and a `[0]` read of the OCR text list that
raises `IndexError` when it is empty (caught at top level as `error`); a
Claude-family model passes an unexpected `programming_language` keyword to
`generate_with_anthropic` (TypeError → `error`). -/
def process_generate_multimodal (env : GenEnv) : GenOut :=
  let t0 := "started" :: uploadEvents env.images
  let record : GenRecord :=
    ⟨env.taskId, surviving env.images, env.images.map (·.filename),
     env.userId, env.images.length⟩
  if env.saveOk = false then ⟨t0 ++ ["save error"], none, none⟩
  else
    let t1 := t0 ++ ["ocr processing"]
    match env.ocrResult with
    | .error _ => ⟨t1 ++ ["ocr error"], some record, none⟩
    | .ok texts =>
      let t2 := t1 ++ ["ocr completed"]
      if pyIn "gpt" env.model then
        match texts with
        | [] => ⟨t2 ++ ["error"], some record, none⟩
        | headText :: _ =>
          let ai := generate_with_openai_multimodal env.aiUrlPresent env.aiHttp headText
            env.userInput (env.images.map (·.contentB64))
            env.programmingLanguage env.speech env.language
          let t3 := t2 ++ ai.1
          match ai.2 with
          | .error _ => ⟨t3 ++ ["ai error"], some record, none⟩
          | .ok (analysis, _) =>
            let split := extractProblemSolution analysis
            let t4 := t3 ++ ["completed"]
            match env.creditsResult with
            | .error _ => ⟨t4 ++ ["credits error", "error"], some record, some split⟩
            | .ok newCredits =>
              ⟨t4 ++ (if newCredits ≤ 0 then ["no credits"] else []),
               some record, some split⟩
      else if pyIn "claude" env.model then
        ⟨t2 ++ ["error"], some record, none⟩
      else
        ⟨t2 ++ ["error"], some record, none⟩

/-- `process_multimodal_debug` (src/services/task_processor.py lines
573–738).  Shares `process_debug`'s shape up to the AI stage; both model
branches pass 7 positional arguments to 6-parameter service functions
(`debug_with_openai_multimodal`, `debug_with_anthropic`), so every run that
reaches the AI stage raises and is returned as a failure dict with no
further event. -/
def process_multimodal_debug (env : DebugEnv) : DebugOut :=
  match env.imagesOpt with
  | none => ⟨[], none, none, .fail "TypeError: NoneType object is not iterable"⟩
  | some images =>
    let record : DebugRecord :=
      ⟨env.taskId, surviving images, images.map (·.filename), images.length, env.round⟩
    if env.saveOk = false then ⟨uploadEvents images ++ ["save error"], none, none, .noRet⟩
    else
      let t1 := uploadEvents images ++ ["ocr processing"]
      match (if images.isEmpty then Except.ok [] else env.ocrResult) with
      | .error e => ⟨t1, some record, none, .fail e⟩
      | .ok _ =>
        let t2 := t1 ++ ["ocr completed"]
        if pyIn "gpt" env.model then
          ⟨t2, some record, none,
           .fail "TypeError: debug_with_openai_multimodal takes 6 positional arguments but 7 were given"⟩
        else if pyIn "claude" env.model then
          ⟨t2, some record, none,
           .fail "TypeError: debug_with_anthropic takes 6 positional arguments but 7 were given"⟩
        else
          ⟨t2, some record, none, .fail "NameError: ai_result is not defined"⟩

/-! ## Claim-side definitions

These follow the wording of the spec/claims (not the source) and are
compared with the embedded code by the theorems below. -/

/-- `t` is an initial segment of `l`. -/
def isInitSeg {α : Type} [DecidableEq α] : List α → List α → Bool
  | [], _ => true
  | _ :: _, [] => false
  | a :: l, b :: m => (a = b) && isInitSeg l m

/-- `suf` is a suffix of `s`. -/
def strEndsWith (s suf : String) : Bool :=
  listStartsWith s.toList.reverse suf.toList.reverse

/-- An error status in the sense of spec §8 (`error` / `*error`). -/
def errorStatus (s : String) : Bool := s = "error" || strEndsWith s "error"

/-- The full status sequence C5 claims, with `k` `uploading` events. -/
def claimedStatusList (k : Nat) : List String :=
  "started" :: List.replicate k "uploading" ++
    ["ocr processing", "ocr completed", "ai processing", "ai completed", "completed"]

/-- C5's claimed language: a prefix of `claimedStatusList k` for some `k`,
or such a sequence that ends early with a single error status.  (`k` up to
the trace length is exhaustive: longer upload runs only lengthen the
list.) -/
def claimC5Allowed (t : List String) : Bool :=
  (List.range (t.length + 1)).any (fun k =>
    isInitSeg t (claimedStatusList k) ||
    (!t.isEmpty && errorStatus (t.getLast?.getD "") &&
      isInitSeg t.dropLast (claimedStatusList k) &&
      decide (t.dropLast.length < (claimedStatusList k).length)))

/-- Consume the upload segment of a status sequence: a run of
`uploading` / `storage error` events (concurrent uploads may interleave
them in any order). -/
def afterUploads : List String → List String
  | [] => []
  | a :: rest =>
    if a = "uploading" || a = "storage error" then afterUploads rest else a :: rest

/-- The admissible credit tail after `completed` in `process_generate` /
`process_generate_multimodal`: nothing, the `no credits` advisory, or
`credits error` followed by the `KeyError`-induced final `error`. -/
def creditsTailOK (l : List String) : Bool :=
  l = [] || l = ["no credits"] || l = ["credits error", "error"]

/-- The admissible AI-stage segment of a `process_generate` trace (after
`ocr completed`): a bare terminal `error` (unrecognised or Claude-family
model), or `ai started` followed by either `ai error` or the duplicated
`ai completed`, `completed` and a credit tail. -/
def aiSegOK (l : List String) : Bool :=
  l = ["error"] ||
    (match l with
     | s :: rest =>
       s = "ai started" &&
         (rest = ["ai error"] ||
           (match rest with
            | a :: b :: c :: t =>
              a = "ai completed" && b = "ai completed" && c = "completed" &&
                creditsTailOK t
            | _ => false))
     | [] => false)

/-- The amended status language of `process_generate`: `started`, an upload
segment, then either a one-event error ending (`error` / `save error` /
`ocr error`) or `ocr completed` followed by an admissible AI segment. -/
def genShapeOK (t : List String) : Bool :=
  match t with
  | s :: rest =>
    s = "started" &&
      (let r := afterUploads rest
       r = ["error"] || r = ["save error"] || r = ["ocr error"] ||
         (match r with
          | a :: s2 => a = "ocr completed" && aiSegOK s2
          | [] => false))
  | [] => false

/-- The invocation at attempt `i` raised an error the wrapper classifies as
retryable. -/
def isRetryableErr {α : Type} : OpResult α → Bool
  | .ok _ => false
  | .err m => isRetryable m

/-- Both `[[[` and `]]]` occur in the reasoning output. -/
def markersPresent (s : String) : Bool :=
  (listFindIdx "[[[".toList s.toList).isSome &&
    (listFindIdx "]]]".toList s.toList).isSome

/-- The claim's problem part: the stripped text between the first `[[[` and
the first `]]]` (empty when a marker is absent). -/
def claimedProblem (s : String) : String :=
  match listFindIdx "[[[".toList s.toList, listFindIdx "]]]".toList s.toList with
  | some i, some j => pyStrip ⟨pySlice s.toList (i + 3) j⟩
  | _, _ => ""

/-- The claim's solution part when both markers occur: everything after the
first `]]]`, stripped. -/
def claimedSolutionAfterMarker (s : String) : String :=
  match listFindIdx "]]]".toList s.toList with
  | some j => pyStrip ⟨s.toList.drop (j + 3)⟩
  | none => ""

/-- What the source actually produces for a marker-less output: the whole
text stripped, with every `---` occurrence removed. -/
def strippedNoDashes (s : String) : String :=
  ⟨removeTripleDash (pyStrip s).toList⟩

/-! # Theorems -/

/-! ## C2 / C10 — the resilience wrapper -/

lemma supabaseRetryAux_ok {α : Type} (op : Nat → OpResult α) (mr : Nat) (bd : ℚ) :
    ∀ (k a r : Nat) (v : α), a + r = mr → k < r →
      (∀ i, i < k → isRetryableErr (op (a + i)) = true) → op (a + k) = .ok v →
      (supabaseRetryAux op mr bd a r).result = .ok v ∧
        (supabaseRetryAux op mr bd a r).calls = k + 1 := by
  intro k
  induction k with
  | zero =>
    intro a r v har hkr _ hok
    obtain ⟨r', rfl⟩ : ∃ r', r = r' + 1 := ⟨r - 1, by omega⟩
    simp only [Nat.add_zero] at hok
    simp [supabaseRetryAux, hok]
  | succ k ih =>
    intro a r v har hkr hretry hok
    obtain ⟨r', rfl⟩ : ∃ r', r = r' + 1 := ⟨r - 1, by omega⟩
    have h0 := hretry 0 (by omega)
    simp only [Nat.add_zero] at h0
    obtain ⟨m, hm, hrm⟩ : ∃ m, op a = .err m ∧ isRetryable m = true := by
      cases hop : op a with
      | ok v => rw [hop] at h0; simp [isRetryableErr] at h0
      | err m => rw [hop] at h0; exact ⟨m, rfl, by simpa [isRetryableErr] using h0⟩
    have hane : ¬(isRetryable m = false ∨ a = mr - 1) := by
      rintro (h | h)
      · rw [hrm] at h; cases h
      · omega
    have hrec := ih (a + 1) r' v (by omega) (by omega)
      (fun i hi => by
        have := hretry (i + 1) (by omega)
        rwa [show a + (i + 1) = a + 1 + i by omega] at this)
      (by rwa [show a + 1 + k = a + (k + 1) by omega])
    simp only [supabaseRetryAux, hm, if_neg hane]
    exact ⟨hrec.1, by rw [hrec.2]⟩

lemma supabaseRetryAux_allRetry {α : Type} (op : Nat → OpResult α) (mr : Nat) (bd : ℚ) :
    ∀ (r a : Nat), a + r = mr → 0 < r →
      (∀ i, a ≤ i → i < mr → isRetryableErr (op i) = true) →
      ∃ m, op (mr - 1) = .err m ∧
        (supabaseRetryAux op mr bd a r).result = .error m ∧
        (supabaseRetryAux op mr bd a r).calls = r := by
  intro r
  induction r with
  | zero => intro a _ h; omega
  | succ r' ih =>
    intro a har _ hretry
    have h0 := hretry a (le_refl a) (by omega)
    obtain ⟨m, hm, hrm⟩ : ∃ m, op a = .err m ∧ isRetryable m = true := by
      cases hop : op a with
      | ok v => rw [hop] at h0; simp [isRetryableErr] at h0
      | err m => rw [hop] at h0; exact ⟨m, rfl, by simpa [isRetryableErr] using h0⟩
    by_cases hr0 : r' = 0
    · subst hr0
      have hlast : a = mr - 1 := by omega
      rw [hlast] at hm
      refine ⟨m, hm, ?_, ?_⟩
      · simp [supabaseRetryAux, hlast, hm]
      · simp [supabaseRetryAux, hlast, hm]
    · have hane : ¬(isRetryable m = false ∨ a = mr - 1) := by
        rintro (h | h)
        · rw [hrm] at h; cases h
        · omega
      obtain ⟨m', hm', hres, hcalls⟩ := ih (a + 1) (by omega) (by omega)
        (fun i hi hi2 => hretry i (by omega) hi2)
      refine ⟨m', hm', ?_, ?_⟩ <;>
        simp [supabaseRetryAux, hm, if_neg hane, hres, hcalls]

/-- C2.  `execute_with_retry` with `max_retries ≥ 1`: (a) an operation that
fails retryably `k < max_retries` times and then succeeds yields the success
value after exactly `k+1` invocations; (b) a non-retryable (fatal) first
failure is raised after exactly one invocation; (c) if every attempt fails
retryably, the wrapper stops after exactly `max_retries` invocations and
raises the error of the last attempt. -/
theorem execute_with_retry_spec {α : Type} (mr : Nat) (bd : ℚ) (op : Nat → OpResult α)
    (hmr : 1 ≤ mr) :
    (∀ k v, k < mr → (∀ i, i < k → isRetryableErr (op i) = true) → op k = .ok v →
      (SupabaseRetryClient.execute_with_retry mr bd op).result = .ok v ∧
        (SupabaseRetryClient.execute_with_retry mr bd op).calls = k + 1) ∧
    (∀ m, op 0 = .err m → isRetryable m = false →
      (SupabaseRetryClient.execute_with_retry mr bd op).result = .error m ∧
        (SupabaseRetryClient.execute_with_retry mr bd op).calls = 1) ∧
    ((∀ i, i < mr → isRetryableErr (op i) = true) →
      ∃ m, op (mr - 1) = .err m ∧
        (SupabaseRetryClient.execute_with_retry mr bd op).result = .error m ∧
        (SupabaseRetryClient.execute_with_retry mr bd op).calls = mr) := by
  refine ⟨?_, ?_, ?_⟩
  · intro k v hk hretry hok
    exact supabaseRetryAux_ok op mr bd k 0 mr v (by omega) hk
      (fun i hi => by simpa using hretry i hi) (by simpa using hok)
  · intro m hm hfatal
    obtain ⟨r', hr'⟩ : ∃ r', mr = r' + 1 := ⟨mr - 1, by omega⟩
    unfold SupabaseRetryClient.execute_with_retry
    rw [hr']
    simp [supabaseRetryAux, hm, hfatal]
  · intro hretry
    exact supabaseRetryAux_allRetry op mr bd mr 0 (by omega) (by omega)
      (fun i _ hi => hretry i hi)

/-- Witness for C2 at `max_retries = 3`: one retryable `timeout` failure
then success returns `42` in 2 calls; a fatal `duplicate key` failure is
raised after 1 call. -/
theorem execute_with_retry_spec_witness :
    ((SupabaseRetryClient.execute_with_retry 3 1
        (fun i => if i = 0 then OpResult.err "timeout" else OpResult.ok 42)).result =
      .ok 42 ∧
     (SupabaseRetryClient.execute_with_retry 3 1
        (fun i => if i = 0 then OpResult.err "timeout" else OpResult.ok 42)).calls = 2) ∧
    ((SupabaseRetryClient.execute_with_retry 3 1
        (fun _ => (OpResult.err "duplicate key" : OpResult Nat))).result =
      .error "duplicate key" ∧
     (SupabaseRetryClient.execute_with_retry 3 1
        (fun _ => (OpResult.err "duplicate key" : OpResult Nat))).calls = 1) :=
  ⟨(execute_with_retry_spec 3 1 _ (by decide)).1 1 42 (by decide)
      (fun i hi => by interval_cases i; decide) (by decide),
   (execute_with_retry_spec 3 1 _ (by decide)).2.1 "duplicate key" rfl (by decide)⟩

lemma coderRetryAux_eq_supabase {α : Type} (op : Nat → OpResult α) (mr : Nat) (bd : ℚ) :
    ∀ r a, coderRetryAux op mr bd a r = supabaseRetryAux op mr bd a r := by
  intro r
  induction r with
  | zero => intro a; rfl
  | succ r' ih =>
    intro a
    cases hop : op a with
    | ok v => simp [coderRetryAux, supabaseRetryAux, hop]
    | err m =>
      simp [coderRetryAux, supabaseRetryAux, hop, ih (a + 1),
        show coderIsRetryable m = isRetryable m from rfl]

/-- C10.  For every operation and identical configuration, the coder-side
retry client is behaviourally equivalent to the primary one: same returned
value or raised error, same invocation count, same backoff delays. -/
theorem coder_retry_equiv {α : Type} (mr : Nat) (bd : ℚ) (op : Nat → OpResult α) :
    CoderSupabaseRetryClient.execute_with_retry mr bd op =
      SupabaseRetryClient.execute_with_retry mr bd op :=
  coderRetryAux_eq_supabase op mr bd mr 0

/-! ## C4 — the credit floor -/

lemma applyCreditChanges_nonneg (uid : String) :
    ∀ (ds : List Int) (db : UsersDB) (c : Int), db.credits uid = some c → 0 ≤ c →
      ∀ v, (applyCreditChanges db uid ds).credits uid = some v → 0 ≤ v := by
  intro ds
  induction ds with
  | nil =>
    intro db c hc h0 v hv
    simp only [applyCreditChanges] at hv
    rw [hc] at hv
    exact (Option.some_inj.mp hv) ▸ h0
  | cons d ds ih =>
    intro db c hc h0 v hv
    simp only [applyCreditChanges] at hv
    refine ih (update_user_credits db uid d).1 (max 0 (c + d)) ?_ (le_max_left 0 _) v hv
    simp [update_user_credits, hc]

/-- C4.  For a user whose stored `remaining_credits` is `c ≥ 0`,
`update_user_credits` writes exactly `max 0 (c + d)` for any change `d`,
and hence after any sequence of credit changes the stored value stays
`≥ 0` (the floor clamp). -/
theorem update_user_credits_spec (db : UsersDB) (uid : String) (c : Int)
    (hc : db.credits uid = some c) (h0 : 0 ≤ c) :
    (∀ d, (update_user_credits db uid d).1.credits uid = some (max 0 (c + d)) ∧
      (update_user_credits db uid d).2 = .ok (max 0 (c + d))) ∧
    (∀ ds v, (applyCreditChanges db uid ds).credits uid = some v → 0 ≤ v) := by
  constructor
  · intro d
    constructor
    · simp [update_user_credits, hc]
    · simp [update_user_credits, hc]
  · intro ds v hv
    exact applyCreditChanges_nonneg uid ds db c hc h0 v hv

/-- Witness for C4: a user holding 5 credits is written `max 0 (5 - 1) = 4`
by a decrement, and six successive decrements leave a non-negative value. -/
theorem update_user_credits_spec_witness :
    ((update_user_credits ⟨fun u => if u = "u1" then some 5 else none⟩ "u1" (-1)).1.credits
        "u1" = some 4) ∧
    (∀ v,
      (applyCreditChanges ⟨fun u => if u = "u1" then some 5 else none⟩ "u1"
          [-1, -1, -1, -1, -1, -1]).credits "u1" = some v → 0 ≤ v) := by
  have h := update_user_credits_spec ⟨fun u => if u = "u1" then some 5 else none⟩ "u1" 5
    (by decide) (by decide)
  exact ⟨by simpa using (h.1 (-1)).1, h.2 [-1, -1, -1, -1, -1, -1]⟩

/-! ## C9 — problem/solution splitting -/

/-- C9 counterexample.  For the marker-less output `a---b` the claim says
`solution` is the entire output, but the source also strips it and removes
every `---`, producing `ab`. -/
theorem extract_split_claim_false :
    extractProblemSolution "a---b" = ("", "ab") ∧
      (extractProblemSolution "a---b").2 ≠ "a---b" := by
  constructor
  · decide
  · decide

/-- C3/C9 amended (C9).  If both `[[[` and `]]]` occur, the split is as the
claim states: problem is the stripped text between the first markers,
solution the stripped remainder after the first `]]]`.  If either marker is
absent, problem is empty and solution is the entire output stripped of
surrounding whitespace with every `---` occurrence removed. -/
theorem extract_split_amended (s : String) :
    (markersPresent s = true →
      extractProblemSolution s = (claimedProblem s, claimedSolutionAfterMarker s)) ∧
    (markersPresent s = false →
      extractProblemSolution s = ("", strippedNoDashes s)) := by
  constructor
  · intro h
    unfold markersPresent at h
    rw [Bool.and_eq_true, Option.isSome_iff_exists, Option.isSome_iff_exists] at h
    obtain ⟨⟨i, hi⟩, j, hj⟩ := h
    unfold extractProblemSolution claimedProblem claimedSolutionAfterMarker
    dsimp only
    rw [hi, hj]
  · intro h
    unfold markersPresent at h
    rw [Bool.and_eq_false_iff] at h
    have hnone : listFindIdx "[[[".toList s.toList = none ∨
        listFindIdx "]]]".toList s.toList = none := by
      rcases h with h | h
      · left
        cases hx : listFindIdx "[[[".toList s.toList
        · rfl
        · rw [hx] at h; cases h
      · right
        cases hx : listFindIdx "]]]".toList s.toList
        · rfl
        · rw [hx] at h; cases h
    unfold extractProblemSolution strippedNoDashes
    dsimp only
    rcases hnone with h | h
    · rw [h]
    · rw [h]
      rcases h1 : listFindIdx "[[[".toList s.toList with _ | i
      · rfl
      · rfl

/-- Witness for C9: both marker branches of the amended statement evaluated
at concrete outputs. -/
theorem extract_split_amended_witness :
    (extractProblemSolution "xx[[[ p ]]] sol" =
      (claimedProblem "xx[[[ p ]]] sol", claimedSolutionAfterMarker "xx[[[ p ]]] sol") ∧
     claimedProblem "xx[[[ p ]]] sol" = "p" ∧
     claimedSolutionAfterMarker "xx[[[ p ]]] sol" = "sol") ∧
    (extractProblemSolution " plain " = ("", strippedNoDashes " plain ") ∧
     strippedNoDashes " plain " = "plain") :=
  ⟨⟨(extract_split_amended "xx[[[ p ]]] sol").1 (by decide), by decide, by decide⟩,
   ⟨(extract_split_amended " plain ").2 (by decide), by decide⟩⟩

/-! ## C3 — conversation growth per debug round -/

/-- C3 counterexample.  A successful debug round on a task whose stored
Conversation has 3 turns: `debug_with_openai` returns (and `process_debug`
persists) a conversation of 4 turns — the history plus the new user turn
only — not the claimed 5; the assistant's reply travels only in the
`analysis` field. -/
theorem debug_conversation_growth_claim_false :
    ((debug_with_openai true
        (Except.ok ⟨some [⟨"system", Content.str "s"⟩, ⟨"user", Content.str "u"⟩,
          ⟨"assistant", Content.str "a"⟩]⟩)
        (Except.ok "reply") [] "fix bug" "Python" "sp").2.toOption.map
        (fun p => p.2.length)) = some 4 ∧
    ¬ ((debug_with_openai true
        (Except.ok ⟨some [⟨"system", Content.str "s"⟩, ⟨"user", Content.str "u"⟩,
          ⟨"assistant", Content.str "a"⟩]⟩)
        (Except.ok "reply") [] "fix bug" "Python" "sp").2.toOption.map
        (fun p => p.2.length)) = some 5 := by
  constructor
  · rfl
  · intro h
    rw [show (debug_with_openai true
        (Except.ok ⟨some [⟨"system", Content.str "s"⟩, ⟨"user", Content.str "u"⟩,
          ⟨"assistant", Content.str "a"⟩]⟩)
        (Except.ok "reply") [] "fix bug" "Python" "sp").2.toOption.map
        (fun p => p.2.length) = some 4 from rfl] at h
    simp at h

/-- C3 amended.  For every successful debug round on a stored Conversation
of length `n`, the conversation returned by `debug_with_openai` and
`debug_with_anthropic` — and the one `process_debug` persists — has length
`n + 1`: the reloaded history plus exactly the new user turn; the
assistant's reply is returned in the `analysis` field but not appended. -/
theorem debug_conversation_growth_amended (recConv : List Msg)
    (responseText : String) (texts : List String)
    (userInput programmingLanguage speech language : String)
    (taskId userId : String) (round : Nat) (credits : Except String Int) :
    ((debug_with_openai true (Except.ok ⟨some recConv⟩) (Except.ok responseText)
        texts userInput programmingLanguage speech).2 =
      .ok (responseText, recConv ++
        [⟨"user", .str (get_user_prompt "debug" programmingLanguage
          (combinedText texts) userInput speech)⟩]) ∧
     (recConv ++
        [(⟨"user", .str (get_user_prompt "debug" programmingLanguage
          (combinedText texts) userInput speech)⟩ : Msg)]).length = recConv.length + 1) ∧
    ((debug_with_anthropic true (Except.ok ⟨some recConv⟩) (Except.ok responseText)
        texts userInput language speech).2 =
      .ok (responseText, recConv ++
        [⟨"user", .str (get_user_prompt "debug" language
          (combinedText texts) userInput speech)⟩])) ∧
    ((process_debug ⟨taskId, userId, userInput, some [], programmingLanguage, "gpt-4o",
        round, speech, language, true, Except.ok [], true, Except.ok ⟨some recConv⟩,
        Except.ok responseText, credits⟩).persistedConv =
      some (recConv ++
        [⟨"user", .str (get_user_prompt "debug" programmingLanguage
          (combinedText []) userInput speech)⟩])) := by
  refine ⟨⟨rfl, by simp⟩, rfl, ?_⟩
  rfl

/-! ## C5 — the published status sequence -/

/-- C5 counterexample.  A fully successful `process_generate` run with a
GPT-family model and an exhausted credit balance publishes
`started, uploading, ocr completed, ai started, ai completed, ai completed,
completed, no credits`: there is no `ocr processing` / `ai processing`
status, `ai completed` appears twice, and the advisory `no credits` status
follows the terminal `completed` — the sequence lies outside the claimed
language. -/
theorem generate_status_claim_false :
    (process_generate ⟨"t1", [⟨"a.png", "QUJD", some "u"⟩], "u1", "solve", "Python",
        "gpt-4o", "", "en", true, Except.ok ["text1"], true, Except.ok "reply",
        Except.ok 0⟩).trace =
      ["started", "uploading", "ocr completed", "ai started", "ai completed",
       "ai completed", "completed", "no credits"] ∧
    claimC5Allowed
      ["started", "uploading", "ocr completed", "ai started", "ai completed",
       "ai completed", "completed", "no credits"] = false := by
  constructor
  · rfl
  · decide

lemma afterUploads_append (imgs : List ImgOutcome) :
    ∀ rest, rest.head? ≠ some "uploading" → rest.head? ≠ some "storage error" →
      afterUploads (uploadEvents imgs ++ rest) = rest := by
  induction imgs with
  | nil =>
    intro rest h1 h2
    simp only [uploadEvents, List.flatMap_nil, List.nil_append]
    cases rest with
    | nil => rfl
    | cons a t =>
      simp only [List.head?] at h1 h2
      unfold afterUploads
      rw [if_neg]
      simp only [Bool.or_eq_true, decide_eq_true_eq, not_or]
      exact ⟨fun h => h1 (by rw [h]), fun h => h2 (by rw [h])⟩
  | cons img imgs ih =>
    intro rest h1 h2
    cases hu : img.uploadUrl with
    | some u =>
      simp only [uploadEvents, List.flatMap_cons, hu, List.nil_append, List.cons_append]
      unfold afterUploads
      rw [if_pos (by simp)]
      exact ih rest h1 h2
    | none =>
      simp only [uploadEvents, List.flatMap_cons, hu, List.cons_append]
      unfold afterUploads
      rw [if_pos (by simp)]
      unfold afterUploads
      rw [if_pos (by simp)]
      exact ih rest h1 h2

/-- C5 amended.  Every `process_generate` status sequence fits the shape
`started · (uploading | storage error)* · T` where `T` is one of: a single
terminal `error` (all uploads failed), `save error`, `ocr error`, or
`ocr completed` followed by the AI segment — a bare `error` for a
non-GPT-family model, or `ai started` followed by `ai error`, or by the
doubled `ai completed`, `completed`, and a credit tail that is empty,
`no credits`, or `credits error` then `error`.  (Events are listed in
image order; `asyncio.gather` may permute the upload segment, which this
shape admits.) -/
theorem generate_status_shape (env : GenEnv) :
    genShapeOK (process_generate env).trace = true := by
  unfold process_generate
  dsimp only
  have hau := afterUploads_append env.images
  cases hempty : (surviving env.images).isEmpty with
  | true =>
    have h := hau ["error"] (by decide) (by decide)
    simp [genShapeOK, h]
  | false =>
    cases hsave : env.saveOk with
    | false =>
      have h := hau ["save error"] (by decide) (by decide)
      simp [genShapeOK, h]
    | true =>
      cases hocr : env.ocrResult with
      | error e =>
        have h := hau ["ocr error"] (by decide) (by decide)
        simp [genShapeOK, h]
      | ok texts =>
        cases hgpt : pyIn "gpt" env.model with
        | true =>
          unfold generate_with_openai
          cases hurl : env.aiUrlPresent with
          | false =>
            have h := hau ["ocr completed", "ai started", "ai error"] (by decide) (by decide)
            simp only [List.append_assoc, List.cons_append, List.nil_append] at h ⊢
            simp [genShapeOK, aiSegOK, h]
          | true =>
            cases hhttp : env.aiHttp with
            | error errText =>
              have h := hau ["ocr completed", "ai started", "ai error"] (by decide) (by decide)
              simp only [List.append_assoc, List.cons_append, List.nil_append] at h ⊢
              simp [genShapeOK, aiSegOK, h]
            | ok resp =>
              cases hcred : env.creditsResult with
              | error e =>
                have h := hau ["ocr completed", "ai started", "ai completed",
                  "ai completed", "completed", "credits error", "error"]
                  (by decide) (by decide)
                simp only [List.append_assoc, List.cons_append, List.nil_append] at h ⊢
                simp [genShapeOK, aiSegOK, creditsTailOK, h]
              | ok n =>
                by_cases hn : n ≤ 0
                · simp only [hn]
                  have h := hau ["ocr completed", "ai started", "ai completed",
                    "ai completed", "completed", "no credits"]
                    (by decide) (by decide)
                  simp only [List.append_assoc, List.cons_append, List.nil_append] at h ⊢
                  simp [genShapeOK, aiSegOK, creditsTailOK, h]
                · simp only [hn]
                  have h := hau ["ocr completed", "ai started", "ai completed",
                    "ai completed", "completed"]
                    (by decide) (by decide)
                  simp only [List.append_assoc, List.cons_append, List.nil_append,
                    List.append_nil] at h ⊢
                  simp [genShapeOK, aiSegOK, creditsTailOK, h]
        | false =>
          cases hclaude : pyIn "claude" env.model with
          | true =>
            have h := hau (["ocr completed"] ++ ["error"]) (by decide) (by decide)
            simp only [List.append_assoc, List.cons_append, List.nil_append] at h ⊢
            simp [genShapeOK, aiSegOK, h]
          | false =>
            have h := hau (["ocr completed"] ++ ["error"]) (by decide) (by decide)
            simp only [List.append_assoc, List.cons_append, List.nil_append] at h ⊢
            simp [genShapeOK, aiSegOK, h]

/-! ## C1 — the refresh coordinator -/

lemma refreshStep_inv {α : Type} (R : α) (s : RefreshState α) (i : Nat)
    (h1 : s.tokenUsed = true → s.cache = some R)
    (h2 : ∀ r, s.cache = some r → r = R)
    (h3 : ∀ (j : Nat) (res : Option α),
      s.callers[j]? = some (RefreshCaller.done res) → res = some R)
    (h4 : s.refreshCalls = if s.tokenUsed then 1 else 0) :
    ((refreshStep R s i).tokenUsed = true → (refreshStep R s i).cache = some R) ∧
    (∀ r, (refreshStep R s i).cache = some r → r = R) ∧
    (∀ (j : Nat) (res : Option α),
      (refreshStep R s i).callers[j]? = some (RefreshCaller.done res) → res = some R) ∧
    (refreshStep R s i).refreshCalls =
      (if (refreshStep R s i).tokenUsed then 1 else 0) := by
  cases hci : s.callers[i]? with
  | none =>
    unfold refreshStep
    rw [hci]
    exact ⟨h1, h2, h3, h4⟩
  | some ph =>
    obtain ⟨hilen, hgi⟩ := List.getElem?_eq_some.mp hci
    cases ph with
    | pending =>
      cases hc : s.cache with
      | some r =>
        unfold refreshStep
        rw [hci, hc]
        dsimp only
        refine ⟨fun hst => hc.symm.trans (h1 hst), ?_, ?_, h4⟩
        · intro r1 hr1
          cases hr1
          exact h2 r hc
        · intro j res hj
          by_cases hij : i = j
          · subst hij
            rw [List.getElem?_set_self hilen] at hj
            cases hj
            rw [h2 r hc]
          · rw [List.getElem?_set_ne hij] at hj
            exact h3 j res hj
      | none =>
        cases st : s.tokenUsed with
        | true => exact Option.noConfusion (hc.symm.trans (h1 st))
        | false =>
          unfold refreshStep
          rw [hci, hc, st, if_neg Bool.false_ne_true]
          dsimp only
          rw [st, if_neg Bool.false_ne_true] at h4
          refine ⟨fun _ => rfl, fun r hr => (Option.some.inj hr).symm, ?_, by
            rw [h4]; rfl⟩
          intro j res hj
          by_cases hij : i = j
          · subst hij
            rw [List.getElem?_set_self hilen] at hj
            cases hj; rfl
          · rw [List.getElem?_set_ne hij] at hj
            exact h3 j res hj
    | done res =>
      unfold refreshStep
      rw [hci]
      exact ⟨h1, h2, h3, h4⟩

lemma refreshRun_inv {α : Type} (R : α) :
    ∀ (sched : List Nat) (s : RefreshState α),
      (s.tokenUsed = true → s.cache = some R) →
      (∀ r, s.cache = some r → r = R) →
      (∀ (j : Nat) (res : Option α),
        s.callers[j]? = some (RefreshCaller.done res) → res = some R) →
      s.refreshCalls = (if s.tokenUsed then 1 else 0) →
      (∀ (j : Nat) (res : Option α), (sched.foldl (refreshStep R) s).callers[j]? =
          some (RefreshCaller.done res) → res = some R) ∧
      (sched.foldl (refreshStep R) s).refreshCalls =
        (if (sched.foldl (refreshStep R) s).tokenUsed then 1 else 0) := by
  intro sched
  induction sched with
  | nil =>
    intro s _ _ h3 h4
    simp only [List.foldl_nil]
    exact ⟨h3, h4⟩
  | cons i sched ih =>
    intro s h1 h2 h3 h4
    obtain ⟨g1, g2, g3, g4⟩ := refreshStep_inv R s i h1 h2 h3 h4
    rw [List.foldl_cons]
    exact ih (refreshStep R s i) g1 g2 g3 g4

/-- C1.  Each `silent_refresh_token` call executes atomically on the event
loop (the function has no suspension point), so for every number of
concurrent callers with the identical refresh credential within the TTL
window and every schedule, the underlying `supabase.auth.refresh_session`
is invoked at most once — the first scheduled caller refreshes and fills
the TTL cache in the same atomic step, every later caller hits the cache —
and every caller that completes receives the same `(user, session)`
pair. -/
theorem refresh_singleflight_spec {α : Type} (R : α) (n : Nat) (sched : List Nat) :
    (refreshRun R n sched).refreshCalls ≤ 1 ∧
    (∀ (i : Nat) (res : Option α), (refreshRun R n sched).callers[i]? =
      some (RefreshCaller.done res) → res = some R) := by
  have h := refreshRun_inv R sched (refreshInit α n)
    (by intro h; cases h)
    (by intro r hr; cases hr)
    (by
      intro j res hj
      rw [show (refreshInit α n).callers = List.replicate n .pending from rfl,
        List.getElem?_replicate] at hj
      split at hj
      · cases hj
      · cases hj)
    rfl
  refine ⟨?_, h.1⟩
  rw [show refreshRun R n sched = sched.foldl (refreshStep R) (refreshInit α n)
    from rfl, h.2]
  split
  · exact le_refl 1
  · exact Nat.zero_le 1

/-- Witness for C1: two callers, schedule `[0, 1]` — one refresh call, and
the second caller's cached result equals the first's pair. -/
theorem refresh_singleflight_spec_witness :
    (refreshRun 7 2 [0, 1]).refreshCalls ≤ 1 ∧ (some 7 : Option Nat) = some 7 :=
  ⟨(refresh_singleflight_spec 7 2 [0, 1]).1,
   (refresh_singleflight_spec 7 2 [0, 1]).2 1 (some 7) (by decide)⟩

/-! ## C7 — behaviour when every upload fails -/

/-- C7 counterexample.  A `process_generate` run whose single upload fails
publishes `All image uploads failed` as a terminal `error` and stops: no
Task record is created and no extraction/reasoning stage runs — contrary to
the claim that every pipeline invocation continues with an empty asset
list. -/
theorem all_uploads_failed_claim_false :
    process_generate ⟨"t1", [⟨"a.png", "QUJD", none⟩], "u1", "solve", "Python",
        "gpt-4o", "", "en", true, Except.ok ["text"], true, Except.ok "reply",
        Except.ok 5⟩ =
      ⟨["started", "uploading", "storage error", "error"], none, none⟩ := by
  rfl

lemma process_debug_proceeds (env : DebugEnv) (imgs : List ImgOutcome)
    (h : env.imagesOpt = some imgs) (hsave : env.saveOk = true) :
    (process_debug env).savedRecord =
      some ⟨env.taskId, surviving imgs, imgs.map (·.filename), imgs.length, env.round⟩ ∧
    "ocr processing" ∈ (process_debug env).trace := by
  unfold process_debug
  rw [h, hsave]
  dsimp only
  rw [if_neg (by simp)]
  repeat' split
  all_goals exact ⟨rfl, by simp⟩

lemma process_multimodal_debug_proceeds (env : DebugEnv) (imgs : List ImgOutcome)
    (h : env.imagesOpt = some imgs) (hsave : env.saveOk = true) :
    (process_multimodal_debug env).savedRecord =
      some ⟨env.taskId, surviving imgs, imgs.map (·.filename), imgs.length, env.round⟩ ∧
    "ocr processing" ∈ (process_multimodal_debug env).trace := by
  unfold process_multimodal_debug
  rw [h, hsave]
  dsimp only
  rw [if_neg (by simp)]
  repeat' split
  all_goals exact ⟨rfl, by simp⟩

lemma process_generate_multimodal_proceeds (env : GenEnv) (hsave : env.saveOk = true) :
    (process_generate_multimodal env).savedRecord =
      some ⟨env.taskId, surviving env.images, env.images.map (·.filename),
        env.userId, env.images.length⟩ ∧
    "ocr processing" ∈ (process_generate_multimodal env).trace := by
  unfold process_generate_multimodal
  rw [hsave]
  dsimp only
  rw [if_neg (by simp)]
  repeat' split
  all_goals exact ⟨rfl, by simp⟩

/-- C7 amended.  When every asset upload fails: `process_debug`,
`process_multimodal_debug` and `process_generate_multimodal` create the
initial record with an empty asset-url list and proceed to the extraction
stage, as the claim states; but `process_generate` publishes the
`All image uploads failed` terminal `error` and stops without creating a
record. -/
theorem all_uploads_failed_behavior (genv : GenEnv) (denv : DebugEnv)
    (imgs : List ImgOutcome)
    (hgen : ∀ img ∈ genv.images, img.uploadUrl = none)
    (hd : denv.imagesOpt = some imgs)
    (hdfail : ∀ img ∈ imgs, img.uploadUrl = none)
    (hdsave : denv.saveOk = true)
    (hmsave : genv.saveOk = true) :
    ((process_generate genv).savedRecord = none ∧
     (process_generate genv).trace = "started" :: uploadEvents genv.images ++ ["error"]) ∧
    ((process_debug denv).savedRecord =
        some ⟨denv.taskId, [], imgs.map (·.filename), imgs.length, denv.round⟩ ∧
     "ocr processing" ∈ (process_debug denv).trace) ∧
    ((process_generate_multimodal genv).savedRecord =
        some ⟨genv.taskId, [], genv.images.map (·.filename), genv.userId,
          genv.images.length⟩ ∧
     "ocr processing" ∈ (process_generate_multimodal genv).trace) ∧
    ((process_multimodal_debug denv).savedRecord =
        some ⟨denv.taskId, [], imgs.map (·.filename), imgs.length, denv.round⟩ ∧
     "ocr processing" ∈ (process_multimodal_debug denv).trace) := by
  have hgsurv : surviving genv.images = [] := by
    exact List.filterMap_eq_nil_iff.mpr hgen
  have hdsurv : surviving imgs = [] := by
    exact List.filterMap_eq_nil_iff.mpr hdfail
  refine ⟨?_, ?_, ?_, ?_⟩
  · unfold process_generate
    rw [if_pos (by rw [hgsurv]; rfl)]
    exact ⟨rfl, rfl⟩
  · have hp := process_debug_proceeds denv imgs hd hdsave
    rw [hdsurv] at hp
    exact hp
  · have hp := process_generate_multimodal_proceeds genv hmsave
    rw [hgsurv] at hp
    exact hp
  · have hp := process_multimodal_debug_proceeds denv imgs hd hdsave
    rw [hdsurv] at hp
    exact hp

/-- Witness for C7: concrete environments whose only upload fails. -/
theorem all_uploads_failed_behavior_witness :
    (process_debug ⟨"t2", "u1", "fix", some [⟨"a.png", "QUJD", none⟩], "Python",
        "gpt-4o", 1, "sp", "en", true, Except.ok ["tx"], true,
        Except.ok ⟨some []⟩, Except.ok "r", Except.ok 3⟩).savedRecord =
      some ⟨"t2", [], ["a.png"], 1, 1⟩ ∧
    "ocr processing" ∈ (process_debug ⟨"t2", "u1", "fix",
        some [⟨"a.png", "QUJD", none⟩], "Python", "gpt-4o", 1, "sp", "en", true,
        Except.ok ["tx"], true, Except.ok ⟨some []⟩, Except.ok "r",
        Except.ok 3⟩).trace :=
  (all_uploads_failed_behavior
    ⟨"t1", [⟨"a.png", "QUJD", none⟩], "u1", "solve", "Python", "gpt-4o", "", "en",
      true, Except.ok ["text"], true, Except.ok "reply", Except.ok 5⟩
    ⟨"t2", "u1", "fix", some [⟨"a.png", "QUJD", none⟩], "Python", "gpt-4o", 1, "sp",
      "en", true, Except.ok ["tx"], true, Except.ok ⟨some []⟩, Except.ok "r",
      Except.ok 3⟩
    [⟨"a.png", "QUJD", none⟩]
    (by intro img him; simp at him; rw [him])
    rfl
    (by intro img him; simp at him; rw [him])
    rfl rfl).2.1

/-! ## C6 — top-level exception handling -/

/-- C6 counterexample.  A `process_debug` run with a Claude-family model
raises a `TypeError` (7 positional arguments passed to the 6-parameter
`debug_with_anthropic`); the top-level handler returns a failure dict and
publishes nothing — the trace ends at `ocr completed` with no error event,
so the task ends without a terminal event from the client's point of
view. -/
theorem debug_uncaught_exception_no_event :
    (process_debug ⟨"t3", "u", "fix", some [⟨"a.png", "QUJD", some "url1"⟩], "Python",
        "claude-3-5-sonnet", 1, "sp", "en", true, Except.ok ["tx"], true,
        Except.ok ⟨some []⟩, Except.ok "r", Except.ok 3⟩).trace =
      ["uploading", "ocr processing", "ocr completed"] ∧
    (process_debug ⟨"t3", "u", "fix", some [⟨"a.png", "QUJD", some "url1"⟩], "Python",
        "claude-3-5-sonnet", 1, "sp", "en", true, Except.ok ["tx"], true,
        Except.ok ⟨some []⟩, Except.ok "r", Except.ok 3⟩).ret =
      DebugRet.fail
        "TypeError: debug_with_anthropic takes 6 positional arguments but 7 were given" ∧
    errorStatus "ocr completed" = false := by
  refine ⟨rfl, rfl, by decide⟩

/-- C6 amended.  Uncaught exceptions are converted into a published
`error` event only in `process_generate` and `process_generate_multimodal`
(shown here for their structural exception paths: `process_generate`'s
unrecognised-model `NameError` and failed-credit-update `KeyError`, and
`process_generate_multimodal`'s non-GPT-model `TypeError`/`NameError` and
empty-OCR-list `IndexError`); in `process_debug` and
`process_multimodal_debug` the top-level handler catches the exception and
returns a `success: false` value without publishing anything, so a debug
task can end with no terminal event. -/
theorem uncaught_exception_handling (genv genv2 : GenEnv) (denv nenv menv : DebugEnv)
    (texts dtexts mtexts texts2 : List String) (resp e : String)
    (imgs mimgs : List ImgOutcome) :
    (¬(surviving genv.images).isEmpty = true → genv.saveOk = true →
      genv.ocrResult = Except.ok texts → pyIn "gpt" genv.model = false →
      pyIn "claude" genv.model = false →
      ∃ t, (process_generate genv).trace = t ++ ["error"]) ∧
    (¬(surviving genv.images).isEmpty = true → genv.saveOk = true →
      genv.ocrResult = Except.ok texts → pyIn "gpt" genv.model = true →
      genv.aiUrlPresent = true → genv.aiHttp = Except.ok resp →
      genv.creditsResult = Except.error e →
      ∃ t, (process_generate genv).trace = t ++ ["error"]) ∧
    (nenv.imagesOpt = none →
      (process_debug nenv).trace = [] ∧
      (process_debug nenv).ret = .fail "TypeError: NoneType object is not iterable") ∧
    (denv.imagesOpt = some imgs → denv.saveOk = true →
      denv.ocrResult = Except.ok dtexts → pyIn "gpt" denv.model = false →
      pyIn "claude" denv.model = true →
      (process_debug denv).trace =
        uploadEvents imgs ++ ["ocr processing", "ocr completed"] ∧
      ∃ m, (process_debug denv).ret = DebugRet.fail m) ∧
    (menv.imagesOpt = some mimgs → menv.saveOk = true →
      menv.ocrResult = Except.ok mtexts →
      (process_multimodal_debug menv).trace =
        uploadEvents mimgs ++ ["ocr processing", "ocr completed"] ∧
      ∃ m, (process_multimodal_debug menv).ret = DebugRet.fail m) ∧
    (genv2.saveOk = true → genv2.ocrResult = Except.ok texts2 →
      pyIn "gpt" genv2.model = false →
      ∃ t, (process_generate_multimodal genv2).trace = t ++ ["error"]) ∧
    (genv2.saveOk = true → genv2.ocrResult = Except.ok [] →
      pyIn "gpt" genv2.model = true →
      ∃ t, (process_generate_multimodal genv2).trace = t ++ ["error"]) := by
  refine ⟨?_, ?_, ?_, ?_, ?_, ?_, ?_⟩
  · intro hne hsave hocr hgpt hclaude
    unfold process_generate
    rw [if_neg hne, if_neg (by simp [hsave]), hocr]
    dsimp only
    rw [if_neg (by rw [hgpt]; exact Bool.false_ne_true),
      if_neg (by rw [hclaude]; exact Bool.false_ne_true)]
    exact ⟨"started" :: uploadEvents genv.images ++ ["ocr completed"], by simp⟩
  · intro hne hsave hocr hgpt hurl hhttp hcred
    unfold process_generate
    rw [if_neg hne, if_neg (by simp [hsave]), hocr]
    dsimp only
    rw [if_pos hgpt]
    unfold generate_with_openai
    rw [if_neg (by simp [hurl]), hhttp, hcred]
    dsimp only
    refine ⟨"started" :: uploadEvents genv.images ++ ["ocr completed", "ai started",
      "ai completed", "ai completed", "completed", "credits error"], by simp⟩
  · intro hnone
    unfold process_debug
    rw [hnone]
    exact ⟨rfl, rfl⟩
  · intro hd hsave hocr hgpt hclaude
    unfold process_debug
    rw [hd, hsave]
    dsimp only
    rw [if_neg (by simp)]
    have hoc : (if imgs.isEmpty then (Except.ok [] : Except String (List String))
        else denv.ocrResult) = Except.ok (if imgs.isEmpty then [] else dtexts) := by
      cases he : imgs.isEmpty
      · simp only [he, Bool.false_eq_true, if_false, hocr]
      · simp only [he, if_true]
    rw [hoc]
    dsimp only
    rw [if_neg (by rw [hgpt]; exact Bool.false_ne_true), if_pos hclaude]
    exact ⟨by simp, _, rfl⟩
  · intro hm hsave hocr
    unfold process_multimodal_debug
    rw [hm, hsave]
    dsimp only
    rw [if_neg (by simp)]
    have hoc : (if mimgs.isEmpty then (Except.ok [] : Except String (List String))
        else menv.ocrResult) = Except.ok (if mimgs.isEmpty then [] else mtexts) := by
      cases he : mimgs.isEmpty
      · simp only [he, Bool.false_eq_true, if_false, hocr]
      · simp only [he, if_true]
    rw [hoc]
    dsimp only
    by_cases hgpt : pyIn "gpt" menv.model = true
    · rw [if_pos hgpt]
      exact ⟨by simp, _, rfl⟩
    · rw [if_neg hgpt]
      by_cases hclaude : pyIn "claude" menv.model = true
      · rw [if_pos hclaude]
        exact ⟨by simp, _, rfl⟩
      · rw [if_neg hclaude]
        exact ⟨by simp, _, rfl⟩
  · intro hsave hocr hgpt
    unfold process_generate_multimodal
    rw [if_neg (by simp [hsave]), hocr]
    dsimp only
    rw [if_neg (by rw [hgpt]; exact Bool.false_ne_true)]
    by_cases hclaude : pyIn "claude" genv2.model = true
    · rw [if_pos hclaude]
      exact ⟨"started" :: uploadEvents genv2.images ++
        ["ocr processing", "ocr completed"], by simp⟩
    · rw [if_neg hclaude]
      exact ⟨"started" :: uploadEvents genv2.images ++
        ["ocr processing", "ocr completed"], by simp⟩
  · intro hsave hocr hgpt
    unfold process_generate_multimodal
    rw [if_neg (by simp [hsave]), hocr]
    dsimp only
    rw [if_pos hgpt]
    exact ⟨"started" :: uploadEvents genv2.images ++
      ["ocr processing", "ocr completed"], by simp⟩

/-- Witness for C6: the generate paths (`process_generate` and
`process_generate_multimodal`) publish a final `error`, the debug paths
return failure values with no error event, at concrete inputs. -/
theorem uncaught_exception_handling_witness :
    (∃ t, (process_generate ⟨"t1", [⟨"a.png", "QUJD", some "u"⟩], "u1", "s", "Python",
        "mystery-model", "", "en", true, Except.ok ["tx"], true, Except.ok "r",
        Except.ok 3⟩).trace = t ++ ["error"]) ∧
    (∃ t, (process_generate_multimodal ⟨"t4", [⟨"a.png", "QUJD", some "u"⟩], "u1",
        "s", "Python", "claude-3", "", "en", true, Except.ok ["tx"], true,
        Except.ok "r", Except.ok 3⟩).trace = t ++ ["error"]) ∧
    ((process_debug ⟨"t2", "u", "fix", none, "Python", "gpt-4o", 1, "sp", "en", true,
        Except.ok [], true, Except.ok ⟨some []⟩, Except.ok "r", Except.ok 3⟩).trace = [] ∧
     (process_debug ⟨"t2", "u", "fix", none, "Python", "gpt-4o", 1, "sp", "en", true,
        Except.ok [], true, Except.ok ⟨some []⟩, Except.ok "r", Except.ok 3⟩).ret =
       .fail "TypeError: NoneType object is not iterable") := by
  have h := uncaught_exception_handling
    ⟨"t1", [⟨"a.png", "QUJD", some "u"⟩], "u1", "s", "Python", "mystery-model", "",
      "en", true, Except.ok ["tx"], true, Except.ok "r", Except.ok 3⟩
    ⟨"t4", [⟨"a.png", "QUJD", some "u"⟩], "u1", "s", "Python", "claude-3", "",
      "en", true, Except.ok ["tx"], true, Except.ok "r", Except.ok 3⟩
    ⟨"t2", "u", "fix", some [], "Python", "claude-3", 1, "sp", "en", true,
      Except.ok [], true, Except.ok ⟨some []⟩, Except.ok "r", Except.ok 3⟩
    ⟨"t2", "u", "fix", none, "Python", "gpt-4o", 1, "sp", "en", true,
      Except.ok [], true, Except.ok ⟨some []⟩, Except.ok "r", Except.ok 3⟩
    ⟨"t2", "u", "fix", some [], "Python", "gpt-4o", 1, "sp", "en", true,
      Except.ok [], true, Except.ok ⟨some []⟩, Except.ok "r", Except.ok 3⟩
    ["tx"] [] [] ["tx"] "r" "e" [] []
  exact ⟨h.1 (by decide) rfl rfl (by decide) (by decide),
    h.2.2.2.2.2.1 rfl rfl (by decide),
    h.2.2.1 rfl⟩

/-! ## C8 — Debug without assets -/

/-- C8.  Calling `process_debug` / `process_multimodal_debug` with `images`
left at its declared default `None` crashes: `enumerate(None)` raises
`TypeError` before any stage runs, and the call returns a failure dict with
no event — the pipeline does not "skip the absent assets and continue the
stored Conversation" as the claim (and the functions' own
`# Make images optional` comment and docstring) intend.  The claimed
behaviour is only reached when the caller substitutes an empty list, as the
third conjunct shows. -/
theorem process_debug_none_images_crash :
    process_debug ⟨"t9", "u9", "help", none, "Python", "gpt-4o", 2, "sp", "en", true,
        Except.ok [], true, Except.ok ⟨some []⟩, Except.ok "r", Except.ok 3⟩ =
      ⟨[], none, none, .fail "TypeError: NoneType object is not iterable"⟩ ∧
    process_multimodal_debug ⟨"t9", "u9", "help", none, "Python", "gpt-4o", 2, "sp",
        "en", true, Except.ok [], true, Except.ok ⟨some []⟩, Except.ok "r",
        Except.ok 3⟩ =
      ⟨[], none, none, .fail "TypeError: NoneType object is not iterable"⟩ ∧
    (process_debug ⟨"t9", "u9", "help", some [], "Python", "gpt-4o", 2, "sp", "en",
        true, Except.ok [], true, Except.ok ⟨some []⟩, Except.ok "r",
        Except.ok 3⟩).ret = DebugRet.ok "r" none := by
  exact ⟨rfl, rfl, rfl⟩
